import Mathlib

/-!
Shallow embedding of the scanner_app repository (src/main.py,
src/scanner_manager.py, src/backends/escl_backend.py,
src/backends/sane_backend.py) together with theorems settling the
specification claims about it.

Python strings are modelled as Lean String values; Python string
operations (endswith, rstrip, lower, the in operator, split, strip) are
re-implemented on the underlying character lists with the exact Python
semantics the source relies on.  HTTP traffic performed by the requests
library is modelled by an explicit world (an oracle mapping request URLs
to outcomes); the filesystem effect of a call is the content the call
wrote at its destination path.  Python exceptions are modelled by
Except values whose error side records the exception that was raised.
-/

/-! ### Python string primitives used by the source -/

/-- Python s.endswith(suffix): the suffix test on the character lists. -/
def pyEndswith (s suffix : String) : Bool :=
  suffix.data.isSuffixOf s.data

/-- Python s.rstrip(slash): drop every trailing slash character. -/
def pyRstripSlash (s : String) : String :=
  ⟨(s.data.reverse.dropWhile (fun c => c = '/')).reverse⟩

/-- Substring containment on character lists, the semantics of the Python
in operator on strings: the needle occurs contiguously in the haystack. -/
def listContainsSub (needle : List Char) : List Char → Bool
  | [] => needle.isEmpty
  | c :: rest => needle.isPrefixOf (c :: rest) || listContainsSub needle rest

/-- Python needle in hay for strings. -/
def pyIn (needle hay : String) : Bool :=
  listContainsSub needle.data hay.data

/-- Python s.lower() restricted to the ASCII identifiers the source
compares against: characterwise lowering. -/
def pyLower (s : String) : String :=
  ⟨s.data.map Char.toLower⟩

/-- Split a character list on a separator character, Python s.split(sep). -/
def splitOnChar (sep : Char) : List Char → List (List Char)
  | [] => [[]]
  | c :: rest =>
    let r := splitOnChar sep rest
    if c = sep then [] :: r
    else
      match r with
      | [] => [[c]]
      | h :: t => (c :: h) :: t

/-- Python os.path.basename for the slash-separated paths the source
builds: the final path segment. -/
def pyBasename (p : String) : String :=
  ⟨((splitOnChar '/' p.data).getLastD [])⟩

/-! ### eSCL backend model (src/backends/escl_backend.py)

The function scan_from_escl normalizes its URL argument, POSTs the fixed
scan-settings document to the ScanJobs resource with a 10 second
timeout, reads the Location response header, GETs NextDocument from the
job URL with a 30 second timeout, and streams the body chunkwise into
the output file opened directly at the destination path.  Every
exception raised inside the try block is wrapped into a single
RuntimeError whose message embeds the cause. -/

/-- The exception that aborts the try block of scan_from_escl.  Each
constructor is one distinct Python exception class reaching the handler:
requests.HTTPError raised by raise_for_status, connection and timeout
errors raised by requests, the KeyError raised by the header lookup
r.headers[Location], and a connection error raised mid-stream by
iter_content. -/
inductive EsclCause where
  | httpStatus (code : Nat)
  | connectionError
  | timeoutError
  | keyError (key : String)
  | streamError
deriving DecidableEq

/-- The message text of the cause, as interpolated by the final
RuntimeError(f-string) wrapper; abstracted but injective per cause. -/
def esclCauseMsg : EsclCause → String
  | .httpStatus code => "HTTP error " ++ toString code
  | .connectionError => "Connection error"
  | .timeoutError => "Request timed out"
  | .keyError k => "KeyError: " ++ k
  | .streamError => "Connection broken while streaming"

/-- One event of a streamed response body as consumed by
resp.iter_content: either a delivered chunk of bytes or a connection
failure raised in the middle of the stream. -/
inductive StreamEvent where
  | chunk (bytes : List Nat)
  | failMid
deriving DecidableEq

/-- An HTTP response as the source consumes it: the status code, the
optional Location header, and the body stream (used only on the GET). -/
structure HttpResp where
  status : Nat
  location : Option String
  stream : List StreamEvent
deriving DecidableEq

/-- Outcome of one HTTP call made through requests: a response, or a
connection error, or a timeout. -/
inductive HttpOutcome where
  | resp (r : HttpResp)
  | connError
  | timeoutExc
deriving DecidableEq

/-- One HTTP request the client issues, with the timeout it passes. -/
structure Request where
  method : String
  url : String
  timeoutSec : Nat
deriving DecidableEq

/-- The network world: what the device answers to the POST submitted at
a URL and to the GET of a URL. -/
structure EsclWorld where
  post : String → HttpOutcome
  get : String → HttpOutcome

/-- The condition under which requests Response.raise_for_status raises
an HTTPError: a 4xx or 5xx status code. -/
def raiseForStatus (code : Nat) : Bool :=
  decide (400 ≤ code ∧ code < 600)

/-- The write loop over iter_content: bytes written before the first
mid-stream failure, and whether such a failure occurred. -/
def streamWrite : List StreamEvent → List Nat × Bool
  | [] => ([], false)
  | .chunk b :: rest =>
    let r := streamWrite rest
    (b ++ r.1, r.2)
  | .failMid :: _ => ([], true)

/-- The URL normalization at the top of scan_from_escl: if not
url.endswith(slash-eSCL) then url = url.rstrip(slash) + slash-eSCL. -/
def normalizeEsclEndpoint (url : String) : String :=
  if pyEndswith url "/eSCL" then url else pyRstripSlash url ++ "/eSCL"

/-- The URL the scan-settings POST is submitted to. -/
def scanJobsUrl (url : String) : String :=
  normalizeEsclEndpoint url ++ "/ScanJobs"

/-- The observable effect of one scan_from_escl call: the HTTP requests
issued in order, the content this call wrote at the output file (none
when the file was never opened), and the returned path or the cause
wrapped into the raised RuntimeError. -/
structure ScanEffect where
  requests : List Request
  file : Option (List Nat)
  result : Except EsclCause String

/-- Shallow embedding of scan_from_escl (src/backends/escl_backend.py).
The XML scan-settings body is a fixed document and does not influence
control flow, so it is not reproduced here. -/
def scan_from_escl (w : EsclWorld) (url output_file : String) : ScanEffect :=
  let u := normalizeEsclEndpoint url
  let postReq : Request := ⟨"POST", u ++ "/ScanJobs", 10⟩
  match w.post (u ++ "/ScanJobs") with
  | .connError => ⟨[postReq], none, .error .connectionError⟩
  | .timeoutExc => ⟨[postReq], none, .error .timeoutError⟩
  | .resp r =>
    if raiseForStatus r.status then
      ⟨[postReq], none, .error (.httpStatus r.status)⟩
    else
      match r.location with
      | none => ⟨[postReq], none, .error (.keyError "Location")⟩
      | some job_url =>
        let getReq : Request := ⟨"GET", job_url ++ "/NextDocument", 30⟩
        match w.get (job_url ++ "/NextDocument") with
        | .connError => ⟨[postReq, getReq], none, .error .connectionError⟩
        | .timeoutExc => ⟨[postReq, getReq], none, .error .timeoutError⟩
        | .resp g =>
          if raiseForStatus g.status then
            ⟨[postReq, getReq], none, .error (.httpStatus g.status)⟩
          else
            let written := streamWrite g.stream
            if written.2 then
              ⟨[postReq, getReq], some written.1, .error .streamError⟩
            else
              ⟨[postReq, getReq], some written.1, .ok output_file⟩

/-- The Except value seen by Python callers of scan_from_escl: success
keeps the path, failure is the RuntimeError message wrapping the cause. -/
def esclResultToPython (r : Except EsclCause String) : Except String String :=
  r.mapError (fun c => "eSCL scan failed: " ++ esclCauseMsg c)

/-! ### Helper lemmas on the string primitives -/

theorem isPrefixOf_append_self (l t : List Char) : l.isPrefixOf (l ++ t) = true := by
  induction l with
  | nil => simp [List.isPrefixOf]
  | cons a l ih => simp [List.isPrefixOf, ih]

theorem isSuffixOf_append_self (l t : List Char) : l.isSuffixOf (t ++ l) = true := by
  show (l.reverse.isPrefixOf (t ++ l).reverse) = true
  rw [List.reverse_append]
  exact isPrefixOf_append_self l.reverse t.reverse

theorem pyEndswith_append (s : String) : pyEndswith (s ++ "/eSCL") "/eSCL" = true := by
  show ("/eSCL".data.isSuffixOf (s ++ "/eSCL").data) = true
  rw [String.data_append]
  exact isSuffixOf_append_self "/eSCL".data s.data

/-- The first HTTP request scan_from_escl issues is always the POST of
the scan settings to the ScanJobs resource of the normalized endpoint. -/
theorem scan_from_escl_first_request (w : EsclWorld) (url out : String) :
    (scan_from_escl w url out).requests.head? = some ⟨"POST", scanJobsUrl url, 10⟩ := by
  rw [scan_from_escl, scanJobsUrl]
  rcases hp : w.post (normalizeEsclEndpoint url ++ "/ScanJobs") with r | _ | _
  · by_cases hr : raiseForStatus r.status
    · simp [hr]
    · rcases hl : r.location with _ | j
      · simp [hr, hl]
      · rcases hg : w.get (j ++ "/NextDocument") with g | _ | _
        · by_cases hgr : raiseForStatus g.status
          · simp [hr, hl, hg, hgr]
          · by_cases hs : (streamWrite g.stream).2
            · simp [hr, hl, hg, hgr, hs]
            · simp [hr, hl, hg, hgr, hs]
        · simp [hr, hl, hg]
        · simp [hr, hl, hg]
  · simp
  · simp

/-- C1: every endpoint URL is normalized to end with the eSCL path
segment, appended only when absent, and the scan-settings POST is
submitted to the ScanJobs resource under the normalized endpoint; both
example URLs of the spec are targeted as the same ScanJobs URL. -/
theorem escl_endpoint_normalization :
    (∀ url : String, pyEndswith (normalizeEsclEndpoint url) "/eSCL" = true) ∧
    (∀ url : String, pyEndswith url "/eSCL" = true → normalizeEsclEndpoint url = url) ∧
    (∀ url : String, pyEndswith url "/eSCL" = false →
      normalizeEsclEndpoint url = pyRstripSlash url ++ "/eSCL") ∧
    (∀ (w : EsclWorld) (url out : String),
      (scan_from_escl w url out).requests.head? = some ⟨"POST", scanJobsUrl url, 10⟩) ∧
    scanJobsUrl "http://10.0.0.5:8080" = "http://10.0.0.5:8080/eSCL/ScanJobs" ∧
    scanJobsUrl "http://10.0.0.5:8080/eSCL" = "http://10.0.0.5:8080/eSCL/ScanJobs" := by
  refine ⟨?_, ?_, ?_, scan_from_escl_first_request, by decide, by decide⟩
  · intro url
    by_cases h : pyEndswith url "/eSCL" = true
    · simp [normalizeEsclEndpoint, h]
    · simp only [Bool.not_eq_true] at h
      simp [normalizeEsclEndpoint, h, pyEndswith_append]
  · intro url h
    simp [normalizeEsclEndpoint, h]
  · intro url h
    simp [normalizeEsclEndpoint, h]

/-- C1 witness: the normalization equations applied at concrete endpoints. -/
theorem escl_endpoint_normalization_witness :
    normalizeEsclEndpoint "http://10.0.0.5:8080" =
      pyRstripSlash "http://10.0.0.5:8080" ++ "/eSCL" ∧
    normalizeEsclEndpoint "http://10.0.0.5:8080/eSCL" = "http://10.0.0.5:8080/eSCL" :=
  ⟨escl_endpoint_normalization.2.2.1 "http://10.0.0.5:8080" (by decide),
   escl_endpoint_normalization.2.1 "http://10.0.0.5:8080/eSCL" (by decide)⟩

/-! ### Job status records (main.py scan_status entries)

The dictionary scan_status maps a scan id to a mutable record.  Each
assignment the execution unit performs on its record is one snapshot in
a trace, so statements about intermediate observable states can be made
precise.  The trace functions below list the successive values of the
record after each assignment of perform_scan and perform_network_scan. -/

/-- One value of a scan_status entry: the status string, the progress
percentage, the result filename, the error detail, and the scanner name
and type stored by local submissions. -/
structure JobRecord where
  status : String
  progress : Nat
  filename : Option String
  error : Option String
  scanner_name : Option String
  scanner_type : Option String
deriving DecidableEq

/-- A job record is terminal when its status is completed or error. -/
def isTerminal (r : JobRecord) : Bool :=
  r.status == "completed" || r.status == "error"

/-- The record stored by start_scan at submission time (main.py lines
362 to 369). -/
def initLocalRecord (scannerName scannerType : String) : JobRecord :=
  ⟨"scanning", 0, none, none, some scannerName, some scannerType⟩

/-- The record stored by start_network_scan at submission time (main.py
lines 416 to 421). -/
def initNetworkRecord : JobRecord :=
  ⟨"scanning", 0, none, none, none, none⟩

/-! ### Device registry (main.py auto_detect_scanners) -/

/-- One raw enumerated entry as returned by the backend: a tuple or
list of field strings, or a bare string. -/
inductive RawScanner where
  | tup (fields : List String)
  | str (s : String)
deriving DecidableEq

/-- One processed entry of available_scanners (main.py lines 127 to
139), restricted to the fields the registry computes. -/
structure ScannerInfo where
  index : Nat
  name : String
  device_id : String
  manufacturer : String
  model : String
  connection_info : String
  ty : String
  connection : String
deriving DecidableEq

/-- The network transport markers of main.py line 145. -/
def networkMarkers : List String :=
  ["airscan", "escl", "network", "net", "wifi", "ip="]

/-- The direct connection markers of main.py line 153. -/
def usbMarkers : List String :=
  ["hpaio", "usb", "direct", "local"]

/-- The vendor name tokens of main.py line 157. -/
def brandMarkers : List String :=
  ["hp", "canon", "epson", "brother", "samsung"]

/-- Whether any marker of the list occurs in the lowercased device id,
the shape of the conditions at main.py lines 145, 153 and 157. -/
def anyMarker (markers : List String) (device_id : String) : Bool :=
  markers.any (fun t => pyIn t (pyLower device_id))

/-- The type string assigned by the classification chain of main.py
lines 141 to 159: network markers first, then direct connection
markers, then vendor tokens, else the initial Unknown. -/
def classifyType (device_id : String) : String :=
  if anyMarker networkMarkers device_id then "Network"
  else if anyMarker usbMarkers device_id then "USB/Direct"
  else if anyMarker brandMarkers device_id then "USB"
  else "Unknown"

/-- The connection string assigned by the same chain, without the ip
extraction refinement of lines 148 to 151 (it rewrites the display
string only and no claim depends on it). -/
def classifyConnection (device_id : String) : String :=
  if anyMarker networkMarkers device_id then "WiFi/Network"
  else if anyMarker usbMarkers device_id then "USB or Direct Connection"
  else if anyMarker brandMarkers device_id then "USB Cable"
  else "Unknown"

/-- Python s.strip() on the space characters the source encounters. -/
def pyStrip (s : String) : String :=
  ⟨((s.data.dropWhile Char.isWhitespace).reverse.dropWhile Char.isWhitespace).reverse⟩

/-- The device id extracted from a raw entry (main.py lines 95 to 119):
element zero of a tuple or list, the string itself otherwise. -/
def rawDeviceId : RawScanner → String
  | .tup fields => fields.headD ""
  | .str s => s

/-- The scanner_name computed at main.py lines 95 to 119. -/
def rawName : RawScanner → String
  | .tup fields =>
    let device_id := fields.headD ""
    let manufacturer := if 3 ≤ fields.length then fields.getD 1 "" else ""
    let model := if 3 ≤ fields.length then fields.getD 2 "" else ""
    if model ≠ "" ∧ manufacturer ≠ "" then manufacturer ++ " " ++ model
    else if model ≠ "" then model
    else if (device_id.data.contains ':') then
      ⟨(splitOnChar ':' device_id.data).getLastD []⟩
    else device_id
  | .str s => s

/-- The bracket cleanup of main.py lines 122 to 125. -/
def displayName (scanner_name : String) : String :=
  if (scanner_name.data.contains '[') ∧ (scanner_name.data.contains ']') then
    pyStrip ⟨(splitOnChar '[' scanner_name.data).headD []⟩
  else scanner_name

/-- Processing of one raw entry into its available_scanners element
(main.py lines 86 to 161). -/
def processScanner (i : Nat) (r : RawScanner) : ScannerInfo :=
  let device_id := rawDeviceId r
  let manufacturer :=
    match r with
    | .tup fields => if 3 ≤ fields.length then fields.getD 1 "" else ""
    | .str _ => ""
  let model :=
    match r with
    | .tup fields => if 3 ≤ fields.length then fields.getD 2 "" else ""
    | .str _ => ""
  let connection_info :=
    match r with
    | .tup fields => if 4 ≤ fields.length then fields.getD 3 "" else ""
    | .str _ => ""
  ⟨i, displayName (rawName r), device_id, manufacturer, model, connection_info,
    classifyType device_id, classifyConnection device_id⟩

/-- The registry state: the published device list and the separately
recorded detection status string. -/
structure RegistryState where
  available_scanners : List ScannerInfo
  detection_status : String
deriving DecidableEq

/-- Outcome of one sm.list_scanners() call inside auto_detect_scanners:
a raw list, or an exception with its message. -/
inductive EnumAttempt where
  | ok (raw : List RawScanner)
  | exc (msg : String)
deriving DecidableEq

/-- The inner enumeration of main.py lines 65 to 82: the first attempt,
on exception a second attempt, on a second exception the empty list. -/
def listScannersWithRetry (a1 a2 : EnumAttempt) : List RawScanner :=
  match a1 with
  | .ok s => s
  | .exc _ =>
    match a2 with
    | .ok s => s
    | .exc _ => []

/-- Shallow embedding of auto_detect_scanners (main.py lines 52 to
187).  The two enumeration attempts are the only failure points the
inner handlers cover; procExc models an exception raised during the
processing phase and reaching the outer handler at line 183, which sets
detection status to error and assigns the empty list to
available_scanners (lines 184 to 187).  The previous registry state is
an argument only to express what the refresh does to it: the result
never depends on it. -/
def auto_detect_scanners (prev : RegistryState) (a1 a2 : EnumAttempt)
    (procExc : Option String) : RegistryState :=
  match procExc with
  | some _ => ⟨[], "error"⟩
  | none =>
    let scanners := listScannersWithRetry a1 a2
    ⟨(scanners.enum.map (fun p => processScanner p.1 p.2)), "completed"⟩

/-! ### SANE backend (src/backends/sane_backend.py) -/

/-- One device tuple returned by sane.get_devices(): the element at
position zero is the device name passed to sane.open. -/
structure SaneDev where
  dev_name : String
  vendor : String
  model : String
  kind : String
deriving DecidableEq

/-- The observable effect of SaneBackend.scan: the device name opened,
if any, and the returned path or the message of the raised exception. -/
structure SaneEffect where
  openedDevice : Option String
  result : Except String String

/-- Shallow embedding of SaneBackend.scan (src/backends/sane_backend.py
lines 10 to 20).  It re-enumerates devices at call time, raises
RuntimeError when none are found, indexes the fresh list with the given
scanner id (an out of range index raises IndexError with the canonical
Python message), opens the device at that position, scans and saves to
the output file.  The hardware interaction itself is modelled as
succeeding; its failure modes are outside the embedded state. -/
def SaneBackend_scan (devices : List SaneDev) (scanner_id : Nat)
    (output_file : String) : SaneEffect :=
  if devices.isEmpty then ⟨none, .error "No scanners found"⟩
  else
    match devices.get? scanner_id with
    | none => ⟨none, .error "list index out of range"⟩
    | some d => ⟨some d.dev_name, .ok output_file⟩

/-! ### Backend selection (src/scanner_manager.py)

The source file carries an editing slip: the assignment of is_render is
written three times and the copy at line 13 sits at the wrong
indentation inside the if block, so the module does not parse (Python
raises IndentationError on import).  The definitions below embed the
evident intended control flow, which is the text with the duplicated
line removed; every other line is translated as written. -/

/-- The backend the manager holds: the escl marker string, a SANE
backend, or a TWAIN backend. -/
inductive Backend where
  | escl
  | saneB
  | twainB
deriving DecidableEq

/-- Backend choice of ScannerManager.init: the RENDER environment flag
forces escl; on linux and darwin a SANE backend is constructed, falling
back to escl when its construction raises; windows uses TWAIN; any
other platform uses escl. -/
def ScannerManager_backend (osName : String) (renderEnv : Option String)
    (saneInitOk : Bool) : Backend :=
  if renderEnv == some "true" then .escl
  else if osName == "linux" || osName == "darwin" then
    (if saneInitOk then .saneB else .escl)
  else if osName == "windows" then .twainB
  else .escl

/-- ScannerManager.list_scanners: the empty list in escl mode, the
delegated enumeration otherwise. -/
def ScannerManager_list_scanners (b : Backend) (localDevices : List SaneDev) :
    List SaneDev :=
  if b == .escl then [] else localDevices

/-- ScannerManager.scan: refused with RuntimeError in escl mode,
delegated to the local backend otherwise (the SANE delegate is shown;
the TWAIN delegate has the same interface shape). -/
def ScannerManager_scan (b : Backend) (fresh : List SaneDev)
    (scanner_id : Nat) (output_file : String) : SaneEffect :=
  if b == .escl then ⟨none, .error "Use scan_network_escl() on Render"⟩
  else SaneBackend_scan fresh scanner_id output_file

/-- ScannerManager.scan_network_escl simply forwards to scan_from_escl,
independently of which backend was selected. -/
def ScannerManager_scan_network_escl (b : Backend) (w : EsclWorld)
    (url output_file : String) : ScanEffect :=
  scan_from_escl w url output_file

/-! ### Asynchronous job execution (main.py perform_scan and
perform_network_scan)

Each function is embedded as the trace of successive values its
scan_status record takes, one entry per assignment, starting from the
record stored at submission.  perform_scan reads the global
available_scanners at execution time on line 514 to print the scanner
name; when a concurrent refresh shrank the registry this read raises
IndexError, which the handler records like any other execution
failure. -/

/-- Trace of perform_scan (main.py lines 507 to 532) on the record r0,
with cachedAtExec the available_scanners list at execution time, idx
the submitted scanner index and scanResult the outcome of the
sm.scan call. -/
def perform_scan_steps (r0 : JobRecord) (cachedAtExec : List ScannerInfo)
    (idx : Nat) (scanResult : Except String String) : List JobRecord :=
  let r1 := { r0 with status := "scanning" }
  let r2 := { r1 with progress := 25 }
  if idx < cachedAtExec.length then
    let r3 := { r2 with progress := 50 }
    match scanResult with
    | .ok path =>
      let r4 := { r3 with status := "completed" }
      let r5 := { r4 with progress := 100 }
      let r6 := { r5 with filename := some (pyBasename path) }
      [r1, r2, r3, r4, r5, r6]
    | .error e =>
      let r4 := { r3 with status := "error" }
      let r5 := { r4 with error := some e }
      [r1, r2, r3, r4, r5]
  else
    let r3 := { r2 with status := "error" }
    let r4 := { r3 with error := some "list index out of range" }
    [r1, r2, r3, r4]

/-- Trace of perform_network_scan (main.py lines 535 to 560) on the
record r0 with scanResult the outcome of sm.scan_network_escl. -/
def perform_network_scan_steps (r0 : JobRecord)
    (scanResult : Except String String) : List JobRecord :=
  let r1 := { r0 with status := "scanning" }
  let r2 := { r1 with progress := 25 }
  let r3 := { r2 with progress := 50 }
  match scanResult with
  | .ok path =>
    let r4 := { r3 with status := "completed" }
    let r5 := { r4 with progress := 100 }
    let r6 := { r5 with filename := some (pyBasename path) }
    [r1, r2, r3, r4, r5, r6]
  | .error e =>
    let r4 := { r3 with status := "error" }
    let r5 := { r4 with error := some e }
    [r1, r2, r3, r4, r5]

/-- The record visible once the execution unit has finished. -/
def finalRecord (trace : List JobRecord) : JobRecord :=
  trace.getLastD initNetworkRecord

/-! ### Scan submission (main.py start_scan) -/

/-- The job table: scan_status, a map from scan id to record. -/
abbrev JobTable := List (String × JobRecord)

/-- The HTTP response start_scan hands back: a 400 with an error
message, or the success body carrying the fresh scan id. -/
inductive ScanResponse where
  | badRequest (msg : String)
  | accepted (scan_id : String)
deriving DecidableEq

/-- Result of one start_scan call: the response, the job table after
the call, and the updated registry list (line 372 stamps last_used on
the selected entry; the field is not modelled, so the list is returned
unchanged). -/
structure SubmitResult where
  response : ScanResponse
  table : JobTable
  scanners : List ScannerInfo

/-- The sanitized scanner name fragment of the generated filename
(main.py line 357): spaces and slashes replaced by underscores, cut to
twenty characters. -/
def sanitizeName (name : String) : String :=
  ⟨(name.data.map (fun c => if c = ' ' ∨ c = '/' then '_' else c)).take 20⟩

/-- The upload path generated at main.py lines 355 to 359. -/
def scanFilepath (scannerName timestamp scan_id format : String) : String :=
  "scans/scan_" ++ sanitizeName scannerName ++ "_" ++ timestamp ++ "_" ++
    scan_id ++ "." ++ format

/-- Shallow embedding of start_scan (main.py lines 331 to 392).  The
scanner index of the request body is validated against the cached
available_scanners snapshot only; on success the initial record is
stored under the fresh scan id and the id is returned at once, the
background thread being started but not executed inside this call. -/
def start_scan (scannerIdx : Option Int) (available : List ScannerInfo)
    (tbl : JobTable) (scan_id : String) : SubmitResult :=
  match scannerIdx with
  | none => ⟨.badRequest "Scanner index is required", tbl, available⟩
  | some idx =>
    if (available.length : Int) ≤ idx ∨ idx < 0 then
      ⟨.badRequest "Invalid scanner index", tbl, available⟩
    else
      let sel := available.getD idx.toNat
        ⟨0, "", "", "", "", "", "Unknown", "Unknown"⟩
      ⟨.accepted scan_id,
        (scan_id, initLocalRecord sel.name sel.ty) :: tbl, available⟩

/-- Shallow embedding of start_network_scan (main.py lines 396 to 440):
no validation beyond presence of the URL; the initial record is stored
and the fresh id returned at once. -/
def start_network_scan (esclUrl : Option String) (tbl : JobTable)
    (scan_id : String) : ScanResponse × JobTable :=
  match esclUrl with
  | none => (.badRequest "eSCL URL is required", tbl)
  | some _ => (.accepted scan_id, (scan_id, initNetworkRecord) :: tbl)

/-! ### Claim C2: missing Location header -/

/-- C2: when the POST to the ScanJobs URL answers with a success status
but without a Location header, scan_from_escl fails with the KeyError
raised by the header lookup, a cause distinct from every HTTP status
failure, connection error and timeout; and the job record driven by
perform_network_scan on that failure ends in a terminal state. -/
theorem escl_missing_location_protocol_violation
    (w : EsclWorld) (url out : String) (r : HttpResp)
    (hpost : w.post (scanJobsUrl url) = .resp r)
    (hsucc : 200 ≤ r.status ∧ r.status < 300)
    (hloc : r.location = none) :
    (scan_from_escl w url out).result = .error (.keyError "Location") ∧
    (∀ code, EsclCause.keyError "Location" ≠ .httpStatus code) ∧
    EsclCause.keyError "Location" ≠ .connectionError ∧
    EsclCause.keyError "Location" ≠ .timeoutError ∧
    isTerminal (finalRecord (perform_network_scan_steps initNetworkRecord
      (esclResultToPython (scan_from_escl w url out).result))) = true := by
  have hr : raiseForStatus r.status = false := by
    simp only [raiseForStatus, decide_eq_false_iff_not]
    omega
  rw [scanJobsUrl] at hpost
  have hres : (scan_from_escl w url out).result = .error (.keyError "Location") := by
    rw [scan_from_escl]
    simp [hpost, hr, hloc]
  refine ⟨hres, fun code h => EsclCause.noConfusion h, fun h => EsclCause.noConfusion h,
    fun h => EsclCause.noConfusion h, ?_⟩
  rw [hres]
  rfl

/-- C2 witness: a concrete world answering the POST with status 201 and
no Location header. -/
theorem escl_missing_location_witness :
    (scan_from_escl ⟨fun _ => .resp ⟨201, none, []⟩, fun _ => .connError⟩
      "http://10.0.0.5:8080" "scans/out.jpg").result =
      .error (.keyError "Location") :=
  (escl_missing_location_protocol_violation _ "http://10.0.0.5:8080" "scans/out.jpg"
    ⟨201, none, []⟩ rfl (by decide) rfl).1

/-! ### Claim C3: refresh failure and the previous device set -/

/-- C3 counterexample: with one device previously published, an
enumeration that raises on both attempts yields detection status
completed (not error) and the empty device list, so the previously
published set is not left intact; a failure reaching the outer handler
also clears the set while recording status error. -/
theorem registry_refresh_failure_counterexample :
    (auto_detect_scanners
        ⟨[⟨0, "HP Deskjet", "net:hp", "", "", "", "Network", "WiFi/Network"⟩],
          "completed"⟩
        (.exc "SANE failure") (.exc "SANE failure") none).detection_status =
      "completed" ∧
    (auto_detect_scanners
        ⟨[⟨0, "HP Deskjet", "net:hp", "", "", "", "Network", "WiFi/Network"⟩],
          "completed"⟩
        (.exc "SANE failure") (.exc "SANE failure") none).available_scanners = [] ∧
    (auto_detect_scanners
        ⟨[⟨0, "HP Deskjet", "net:hp", "", "", "", "Network", "WiFi/Network"⟩],
          "completed"⟩
        (.exc "boom") (.exc "boom") (some "processing failure")).available_scanners =
      [] := by
  exact ⟨rfl, rfl, rfl⟩

/-- C3 amended: a refresh never preserves the previous set.  When the
enumeration raises on both attempts the failure is swallowed and the
registry publishes the empty list with status completed; when a failure
reaches the outer handler the registry publishes the empty list with
status error; and the refresh result never depends on the previous
state at all. -/
theorem registry_refresh_replaces_previous_set
    (prev : RegistryState) (m1 m2 e : String) :
    auto_detect_scanners prev (.exc m1) (.exc m2) none = ⟨[], "completed"⟩ ∧
    (∀ a1 a2, auto_detect_scanners prev a1 a2 (some e) = ⟨[], "error"⟩) ∧
    (∀ a1 a2 p, auto_detect_scanners prev a1 a2 p =
      auto_detect_scanners ⟨[], "initializing"⟩ a1 a2 p) := by
  exact ⟨rfl, fun a1 a2 => rfl, fun a1 a2 p => rfl⟩

/-! ### Claim C9: scanner type classification -/

/-- C9: classification lowercases the backend supplied device id and
tests the marker sets in priority order: network markers give Network
even when direct markers are also present, then direct markers give
USB/Direct, then vendor tokens give USB, defaulting to Unknown; the
processed registry entry carries exactly this classification of its
device id. -/
theorem scanner_type_classification (d : String) :
    (anyMarker networkMarkers d = true → classifyType d = "Network") ∧
    (anyMarker networkMarkers d = false → anyMarker usbMarkers d = true →
      classifyType d = "USB/Direct") ∧
    (anyMarker networkMarkers d = false → anyMarker usbMarkers d = false →
      anyMarker brandMarkers d = true → classifyType d = "USB") ∧
    (anyMarker networkMarkers d = false → anyMarker usbMarkers d = false →
      anyMarker brandMarkers d = false → classifyType d = "Unknown") ∧
    classifyType "Network USB Scanner" = "Network" ∧
    classifyType "AIRSCAN:escl device" = classifyType "airscan:escl device" ∧
    (∀ i r, (processScanner i r).ty = classifyType (rawDeviceId r)) := by
  refine ⟨?_, ?_, ?_, ?_, by decide, by decide, fun i r => rfl⟩
  · intro h
    simp [classifyType, h]
  · intro h1 h2
    simp [classifyType, h1, h2]
  · intro h1 h2 h3
    simp [classifyType, h1, h2, h3]
  · intro h1 h2 h3
    simp [classifyType, h1, h2, h3]

/-- C9 witness: the priority chain applied to a concrete device id that
carries a direct connection marker and no network marker. -/
theorem scanner_type_classification_witness :
    classifyType "usb:001:004" = "USB/Direct" :=
  (scanner_type_classification "usb:001:004").2.1 (by decide) (by decide)

/-! ### Claim C4: HTTP failures of the eSCL sequence -/

/-- The requests scan_from_escl issues form a prefix of the protocol
pair: the POST alone, or the POST followed by the single GET of the job
resource document; no other request (in particular no cleanup request)
is ever issued. -/
theorem scan_from_escl_requests_shape (w : EsclWorld) (url out : String) :
    (scan_from_escl w url out).requests = [⟨"POST", scanJobsUrl url, 10⟩] ∨
    ∃ j, (scan_from_escl w url out).requests =
      [⟨"POST", scanJobsUrl url, 10⟩, ⟨"GET", j ++ "/NextDocument", 30⟩] := by
  rw [scan_from_escl, scanJobsUrl]
  rcases hp : w.post (normalizeEsclEndpoint url ++ "/ScanJobs") with r | _ | _
  · by_cases hr : raiseForStatus r.status
    · simp [hr]
    · rcases hl : r.location with _ | j
      · simp [hr, hl]
      · rcases hg : w.get (j ++ "/NextDocument") with g | _ | _
        · by_cases hgr : raiseForStatus g.status
          · exact .inr ⟨j, by simp [hr, hl, hg, hgr]⟩
          · by_cases hs : (streamWrite g.stream).2
            · exact .inr ⟨j, by simp [hr, hl, hg, hgr, hs]⟩
            · exact .inr ⟨j, by simp [hr, hl, hg, hgr, hs]⟩
        · exact .inr ⟨j, by simp [hr, hl, hg]⟩
        · exact .inr ⟨j, by simp [hr, hl, hg]⟩
  · simp
  · simp

/-- C4 counterexample: a non 2xx POST status does not by itself fail
the operation.  The device answers the POST with status 304 carrying a
Location header; raise_for_status raises only on 4xx and 5xx codes, so
the sequence continues and the whole scan succeeds despite the non 2xx
status. -/
theorem escl_non2xx_success_counterexample :
    (scan_from_escl
      ⟨fun _ => .resp ⟨304, some "http://10.0.0.5:8080/eSCL/ScanJobs/1", []⟩,
        fun _ => .resp ⟨200, none, [.chunk [255, 216]]⟩⟩
      "http://10.0.0.5:8080" "scans/out.jpg").result = .ok "scans/out.jpg" := by
  rfl

/-- C4 amended: for every HTTP level failure in the sense of the code
(a 4xx or 5xx status, a connection error, or a timeout) at either step,
the whole operation fails with the single wrapped error carrying that
underlying cause, and no cleanup of the remote job is attempted: after
a failing POST no further request is issued, and in every case the
requests issued are only the protocol POST and GET. -/
theorem escl_http_failure_single_error (w : EsclWorld) (url out : String) :
    (∀ q ∈ (scan_from_escl w url out).requests,
      q.method = "POST" ∨ q.method = "GET") ∧
    (scan_from_escl w url out).requests.length ≤ 2 ∧
    (∀ r, w.post (scanJobsUrl url) = .resp r → raiseForStatus r.status = true →
      (scan_from_escl w url out).result = .error (.httpStatus r.status) ∧
      (scan_from_escl w url out).requests.length = 1) ∧
    (w.post (scanJobsUrl url) = .connError →
      (scan_from_escl w url out).result = .error .connectionError ∧
      (scan_from_escl w url out).requests.length = 1) ∧
    (w.post (scanJobsUrl url) = .timeoutExc →
      (scan_from_escl w url out).result = .error .timeoutError ∧
      (scan_from_escl w url out).requests.length = 1) ∧
    (∀ r j g, w.post (scanJobsUrl url) = .resp r → raiseForStatus r.status = false →
      r.location = some j → w.get (j ++ "/NextDocument") = .resp g →
      raiseForStatus g.status = true →
      (scan_from_escl w url out).result = .error (.httpStatus g.status)) ∧
    (∀ r j, w.post (scanJobsUrl url) = .resp r → raiseForStatus r.status = false →
      r.location = some j → w.get (j ++ "/NextDocument") = .connError →
      (scan_from_escl w url out).result = .error .connectionError) ∧
    (∀ r j, w.post (scanJobsUrl url) = .resp r → raiseForStatus r.status = false →
      r.location = some j → w.get (j ++ "/NextDocument") = .timeoutExc →
      (scan_from_escl w url out).result = .error .timeoutError) := by
  constructor
  · intro q hq
    rcases scan_from_escl_requests_shape w url out with h | ⟨j, h⟩
    · rw [h] at hq
      simp at hq
      simp [hq]
    · rw [h] at hq
      simp only [List.mem_cons, List.not_mem_nil, or_false] at hq
      rcases hq with hq | hq <;> simp [hq]
  constructor
  · rcases scan_from_escl_requests_shape w url out with h | ⟨j, h⟩ <;> simp [h]
  constructor
  · intro r hp hr
    rw [scanJobsUrl] at hp
    rw [scan_from_escl]
    simp [hp, hr]
  constructor
  · intro hp
    rw [scanJobsUrl] at hp
    rw [scan_from_escl]
    simp [hp]
  constructor
  · intro hp
    rw [scanJobsUrl] at hp
    rw [scan_from_escl]
    simp [hp]
  constructor
  · intro r j g hp hr hl hg hgr
    rw [scanJobsUrl] at hp
    rw [scan_from_escl]
    simp [hp, hr, hl, hg, hgr]
  constructor
  · intro r j hp hr hl hg
    rw [scanJobsUrl] at hp
    rw [scan_from_escl]
    simp [hp, hr, hl, hg]
  · intro r j hp hr hl hg
    rw [scanJobsUrl] at hp
    rw [scan_from_escl]
    simp [hp, hr, hl, hg]

/-- C4 witness: a POST answered with status 404 fails the operation
with that cause and no further request. -/
theorem escl_http_failure_single_error_witness :
    (scan_from_escl ⟨fun _ => .resp ⟨404, none, []⟩, fun _ => .connError⟩
      "http://10.0.0.5:8080" "scans/out.jpg").result =
      .error (.httpStatus 404) ∧
    (scan_from_escl ⟨fun _ => .resp ⟨404, none, []⟩, fun _ => .connError⟩
      "http://10.0.0.5:8080" "scans/out.jpg").requests.length = 1 :=
  (escl_http_failure_single_error _ "http://10.0.0.5:8080" "scans/out.jpg").2.2.1
    ⟨404, none, []⟩ rfl (by decide)

/-! ### Claim C5: file effects at the destination path -/

/-- C5 counterexample: the implementation streams straight into the
destination file, so a connection failure in the middle of the image
stream leaves a partially written file at the destination path while
the operation fails. -/
theorem escl_partial_file_counterexample :
    (scan_from_escl
      ⟨fun _ => .resp ⟨201, some "http://10.0.0.5:8080/eSCL/ScanJobs/1", []⟩,
        fun _ => .resp ⟨200, none, [.chunk [255, 216], .failMid]⟩⟩
      "http://10.0.0.5:8080" "scans/out.jpg").result = .error .streamError ∧
    (scan_from_escl
      ⟨fun _ => .resp ⟨201, some "http://10.0.0.5:8080/eSCL/ScanJobs/1", []⟩,
        fun _ => .resp ⟨200, none, [.chunk [255, 216], .failMid]⟩⟩
      "http://10.0.0.5:8080" "scans/out.jpg").file = some [255, 216] := by
  exact ⟨rfl, rfl⟩

/-- C5 amended: on success the destination file is written and its path
returned; on any failure before the streaming of the image body starts,
no file is created at the destination; but a failure during streaming
leaves the partially written file at the destination path, since the
code writes directly to it instead of using a temporary path. -/
theorem escl_file_write_behavior (w : EsclWorld) (url out : String) :
    (∀ p, (scan_from_escl w url out).result = .ok p →
      p = out ∧ (scan_from_escl w url out).file.isSome = true) ∧
    (∀ c, (scan_from_escl w url out).result = .error c → c ≠ .streamError →
      (scan_from_escl w url out).file = none) ∧
    ((scan_from_escl w url out).result = .error .streamError →
      (scan_from_escl w url out).file.isSome = true) := by
  rw [scan_from_escl]
  rcases hp : w.post (normalizeEsclEndpoint url ++ "/ScanJobs") with r | _ | _
  · by_cases hr : raiseForStatus r.status
    · refine ⟨?_, ?_, ?_⟩ <;> simp [hr]
    · rcases hl : r.location with _ | j
      · refine ⟨?_, ?_, ?_⟩ <;> simp [hr, hl]
      · rcases hg : w.get (j ++ "/NextDocument") with g | _ | _
        · by_cases hgr : raiseForStatus g.status
          · refine ⟨?_, ?_, ?_⟩ <;> simp [hr, hl, hg, hgr]
          · by_cases hs : (streamWrite g.stream).2
            · refine ⟨?_, ?_, ?_⟩ <;> simp [hr, hl, hg, hgr, hs]
            · refine ⟨?_, ?_, ?_⟩ <;> simp [hr, hl, hg, hgr, hs]
        · refine ⟨?_, ?_, ?_⟩ <;> simp [hr, hl, hg]
        · refine ⟨?_, ?_, ?_⟩ <;> simp [hr, hl, hg]
  · refine ⟨?_, ?_, ?_⟩ <;> simp
  · refine ⟨?_, ?_, ?_⟩ <;> simp

/-- C5 witness: a connection error at the POST step leaves no file at
the destination. -/
theorem escl_file_write_behavior_witness :
    (scan_from_escl ⟨fun _ => .connError, fun _ => .connError⟩
      "http://10.0.0.5:8080" "scans/out.jpg").file = none :=
  (escl_file_write_behavior _ "http://10.0.0.5:8080" "scans/out.jpg").2.1
    .connectionError rfl (by decide)

/-! ### Claim C6: network only mode (supporting theorem)

The source of ScannerManager.init does not parse (the mis-indented
duplicate assignment at scanner_manager.py line 13), so the module as
committed cannot start at all; the theorem below establishes the claim
on the embedding of the evident intended control flow. -/

/-- C6: with the RENDER flag set, or with SANE initialization failing
on linux or darwin, the manager selects the escl backend: local
enumeration returns the empty list, the local scan is refused with the
RuntimeError of scanner_manager.py line 35, and the network eSCL scan
operation forwards to scan_from_escl for every backend. -/
theorem scanner_manager_network_only_mode :
    (∀ osName ok, ScannerManager_backend osName (some "true") ok = .escl) ∧
    (∀ env, env ≠ some "true" → ScannerManager_backend "linux" env false = .escl) ∧
    (∀ env, env ≠ some "true" → ScannerManager_backend "darwin" env false = .escl) ∧
    (∀ dl, ScannerManager_list_scanners .escl dl = []) ∧
    (∀ fresh i o, (ScannerManager_scan .escl fresh i o).result =
      .error "Use scan_network_escl() on Render") ∧
    (∀ b w u o, ScannerManager_scan_network_escl b w u o = scan_from_escl w u o) := by
  refine ⟨?_, ?_, ?_, fun dl => rfl, fun fresh i o => rfl, fun b w u o => rfl⟩
  · intro osName ok
    simp [ScannerManager_backend]
  · intro env h
    simp [ScannerManager_backend, h]
  · intro env h
    simp [ScannerManager_backend, h]

/-- C6 witness: SANE initialization failure on linux without the RENDER
flag selects the escl backend. -/
theorem scanner_manager_network_only_mode_witness :
    ScannerManager_backend "linux" none false = Backend.escl :=
  scanner_manager_network_only_mode.2.1 none (by decide)

/-! ### Claim C7: asynchronous submission and failure recording -/

/-- C7: a valid submission returns the fresh scan id at once, with the
job table extended by the initial non terminal record and the job not
yet executed (the submission result does not depend on any scan
outcome); and every execution failure is recorded by the execution
trace as the terminal error record carrying the message of the caught
exception, the trace being a total function of the outcome, so nothing
propagates to the submitting caller. -/
theorem scan_submission_async_failure_recording
    (idx : Int) (available : List ScannerInfo) (tbl : JobTable) (scan_id : String)
    (hlo : 0 ≤ idx) (hhi : idx < (available.length : Int)) :
    (start_scan (some idx) available tbl scan_id).response = .accepted scan_id ∧
    (start_scan (some idx) available tbl scan_id).table =
      (scan_id, initLocalRecord
        (available.getD idx.toNat ⟨0, "", "", "", "", "", "Unknown", "Unknown"⟩).name
        (available.getD idx.toNat ⟨0, "", "", "", "", "", "Unknown", "Unknown"⟩).ty) :: tbl ∧
    List.lookup scan_id (start_scan (some idx) available tbl scan_id).table =
      some (initLocalRecord
        (available.getD idx.toNat ⟨0, "", "", "", "", "", "Unknown", "Unknown"⟩).name
        (available.getD idx.toNat ⟨0, "", "", "", "", "", "Unknown", "Unknown"⟩).ty) ∧
    (∀ n t, isTerminal (initLocalRecord n t) = false ∧
      (initLocalRecord n t).progress = 0) ∧
    (∀ r0 cached i e, i < cached.length →
      finalRecord (perform_scan_steps r0 cached i (.error e)) =
        { r0 with status := "error", progress := 50, error := some e }) ∧
    (∀ r0 e, finalRecord (perform_network_scan_steps r0 (.error e)) =
      { r0 with status := "error", progress := 50, error := some e }) ∧
    (∀ r0 e, isTerminal (finalRecord (perform_network_scan_steps r0 (.error e))) =
      true) := by
  have hcond : ¬((available.length : Int) ≤ idx ∨ idx < 0) := by omega
  refine ⟨?_, ?_, ?_, fun n t => ⟨rfl, rfl⟩, ?_, fun r0 e => rfl, fun r0 e => rfl⟩
  · simp [start_scan, hcond]
  · simp [start_scan, hcond]
  · simp [start_scan, hcond, List.lookup]
  · intro r0 cached i e hi
    simp [perform_scan_steps, finalRecord, hi]

/-- C7 witness: a concrete valid submission. -/
theorem scan_submission_async_failure_recording_witness :
    (start_scan (some 0)
      [⟨0, "HP Deskjet", "usb:001", "", "", "", "USB/Direct",
        "USB or Direct Connection"⟩]
      [] "job-1").response = .accepted "job-1" :=
  (scan_submission_async_failure_recording 0
    [⟨0, "HP Deskjet", "usb:001", "", "", "", "USB/Direct",
      "USB or Direct Connection"⟩]
    [] "job-1" (by decide) (by decide)).1

/-! ### Claim C8: monotone job records -/

/-- C8 counterexample: on the success path the status assignment of
main.py line 525 precedes the progress and filename assignments of
lines 526 and 527, so the snapshot at position 3 of the trace is
already terminal (completed at progress 50) while the snapshot at
position 4 differs from it: the record does receive further updates
after reaching a terminal state, refuting that clause of the claim
(a poller can observe a completed job at progress 50). -/
theorem job_terminal_update_counterexample :
    (perform_scan_steps (initLocalRecord "HP Deskjet" "USB/Direct")
        [⟨0, "HP Deskjet", "usb:001", "", "", "", "USB/Direct",
          "USB or Direct Connection"⟩]
        0 (.ok "scans/a.png")).get? 3 =
      some ⟨"completed", 50, none, none, some "HP Deskjet", some "USB/Direct"⟩ ∧
    (perform_scan_steps (initLocalRecord "HP Deskjet" "USB/Direct")
        [⟨0, "HP Deskjet", "usb:001", "", "", "", "USB/Direct",
          "USB or Direct Connection"⟩]
        0 (.ok "scans/a.png")).get? 4 =
      some ⟨"completed", 100, none, none, some "HP Deskjet", some "USB/Direct"⟩ ∧
    isTerminal ⟨"completed", 50, none, none, some "HP Deskjet", some "USB/Direct"⟩ =
      true := by
  exact ⟨rfl, rfl, rfl⟩

/-- C8 amended: starting from the freshly stored record, progress is
non decreasing along every execution trace with the milestone values
25 and 50 before the transfer and 100 on success, and the status never
reverts once terminal; the only updates following the first terminal
snapshot complete that same transition (progress 100 and filename on
success, the error detail on failure). -/
theorem job_progress_monotonic
    (r0 : JobRecord) (cached : List ScannerInfo) (idx : Nat) (p e : String)
    (hs0 : r0.status = "scanning") (hp0 : r0.progress = 0) :
    (∀ res, List.Chain' (fun a b => a.progress ≤ b.progress)
      (r0 :: perform_scan_steps r0 cached idx res)) ∧
    (∀ res, List.Chain' (fun a b => isTerminal a = true → b.status = a.status)
      (r0 :: perform_scan_steps r0 cached idx res)) ∧
    (∀ res, List.Chain' (fun a b => a.progress ≤ b.progress)
      (r0 :: perform_network_scan_steps r0 res)) ∧
    (∀ res, List.Chain' (fun a b => isTerminal a = true → b.status = a.status)
      (r0 :: perform_network_scan_steps r0 res)) ∧
    (idx < cached.length →
      (perform_scan_steps r0 cached idx (.ok p)).map
        (fun r => (r.status, r.progress)) =
        [("scanning", 0), ("scanning", 25), ("scanning", 50),
          ("completed", 50), ("completed", 100), ("completed", 100)]) ∧
    (idx < cached.length →
      (perform_scan_steps r0 cached idx (.error e)).map
        (fun r => (r.status, r.progress)) =
        [("scanning", 0), ("scanning", 25), ("scanning", 50),
          ("error", 50), ("error", 50)]) ∧
    (perform_network_scan_steps r0 (.ok p)).map (fun r => (r.status, r.progress)) =
      [("scanning", 0), ("scanning", 25), ("scanning", 50),
        ("completed", 50), ("completed", 100), ("completed", 100)] ∧
    (perform_network_scan_steps r0 (.error e)).map (fun r => (r.status, r.progress)) =
      [("scanning", 0), ("scanning", 25), ("scanning", 50),
        ("error", 50), ("error", 50)] := by
  refine ⟨?_, ?_, ?_, ?_, ?_, ?_, ?_, ?_⟩
  · intro res
    by_cases hi : idx < cached.length
    · rcases res with q | f <;>
        simp [perform_scan_steps, hi, List.chain'_cons, hp0]
    · simp [perform_scan_steps, hi, List.chain'_cons, hp0]
  · intro res
    by_cases hi : idx < cached.length
    · rcases res with q | f <;>
        simp [perform_scan_steps, hi, List.chain'_cons, isTerminal, hs0]
    · simp [perform_scan_steps, hi, List.chain'_cons, isTerminal, hs0]
  · intro res
    rcases res with q | f <;>
      simp [perform_network_scan_steps, List.chain'_cons, hp0]
  · intro res
    rcases res with q | f <;>
      simp [perform_network_scan_steps, List.chain'_cons, isTerminal, hs0]
  · intro hi
    simp [perform_scan_steps, hi, hs0, hp0]
  · intro hi
    simp [perform_scan_steps, hi, hs0, hp0]
  · simp [perform_network_scan_steps, hs0, hp0]
  · simp [perform_network_scan_steps, hs0, hp0]

/-- C8 witness: the milestone trace of a concrete successful network
scan execution. -/
theorem job_progress_monotonic_witness :
    (perform_network_scan_steps initNetworkRecord (.ok "scans/a.jpg")).map
      (fun r => (r.status, r.progress)) =
      [("scanning", 0), ("scanning", 25), ("scanning", 50),
        ("completed", 50), ("completed", 100), ("completed", 100)] :=
  (job_progress_monotonic initNetworkRecord [] 0 "scans/a.jpg" "err"
    rfl rfl).2.2.2.2.2.2.1

/-! ### Claim C10: stale indices fail inside the execution unit -/

/-- C10 counterexample: index 0 is in range of a one entry cached
snapshot, so submission accepts it; the fresh enumeration at scan time
is empty, so the index is out of range of it, yet the failure is not an
out of bounds indexing: the guard of sane_backend.py lines 12 and 13
raises RuntimeError with the message No scanners found before any
indexing happens, a message distinct from the IndexError message, and
that message is what the failed job records. -/
theorem stale_index_empty_enumeration_counterexample :
    (start_scan (some 0)
      [⟨0, "HP Deskjet", "usb:001", "", "", "", "USB/Direct",
        "USB or Direct Connection"⟩]
      [] "job-1").response = .accepted "job-1" ∧
    ([] : List SaneDev).length ≤ 0 ∧
    (SaneBackend_scan [] 0 "scans/a.png").openedDevice = none ∧
    (SaneBackend_scan [] 0 "scans/a.png").result = .error "No scanners found" ∧
    ("No scanners found" : String) ≠ "list index out of range" ∧
    finalRecord (perform_scan_steps (initLocalRecord "HP Deskjet" "USB/Direct")
        [⟨0, "HP Deskjet", "usb:001", "", "", "", "USB/Direct",
          "USB or Direct Connection"⟩]
        0 (SaneBackend_scan [] 0 "scans/a.png").result) =
      { initLocalRecord "HP Deskjet" "USB/Direct" with
        status := "error", progress := 50, error := some "No scanners found" } := by
  refine ⟨rfl, by decide, rfl, rfl, by decide, rfl⟩

/-- C10 amended: the submission validates the index only against the
cached registry snapshot and accepts it; the SANE backend resolves the
index against the fresh enumeration it performs at scan time, so the
opened device is the one at that position of the fresh list; and an
index in range of the cached snapshot but out of range of the fresh
enumeration fails inside the execution unit, not by a rejection at
submission: with the explicit RuntimeError No scanners found when the
fresh enumeration is empty, and with the IndexError of the out of
bounds list access otherwise; either way the trace ends in the
terminal error record carrying that message. -/
theorem stale_index_fails_in_execution
    (cachedSub cachedExec : List ScannerInfo) (fresh : List SaneDev)
    (idx : Nat) (tbl : JobTable) (scan_id out : String) (r0 : JobRecord)
    (hsub : idx < cachedSub.length) :
    (start_scan (some (idx : Int)) cachedSub tbl scan_id).response =
      .accepted scan_id ∧
    (SaneBackend_scan fresh idx out).openedDevice =
      (fresh.get? idx).map SaneDev.dev_name ∧
    (SaneBackend_scan [] idx out).result = .error "No scanners found" ∧
    (fresh ≠ [] → fresh.length ≤ idx →
      (SaneBackend_scan fresh idx out).result = .error "list index out of range") ∧
    (fresh.length ≤ idx → idx < cachedExec.length →
      finalRecord (perform_scan_steps r0 cachedExec idx
          (SaneBackend_scan fresh idx out).result) =
        { r0 with status := "error", progress := 50, error := some (if fresh = [] then "No scanners found" else "list index out of range") }) := by
  have hresult : fresh ≠ [] → fresh.length ≤ idx →
      (SaneBackend_scan fresh idx out).result = .error "list index out of range" := by
    intro hne hlen
    have hfe : fresh.isEmpty = false := by
      simp [List.isEmpty_iff, hne]
    have hget : fresh[idx]? = none := by
      simp [List.getElem?_eq_none, hlen]
    simp [SaneBackend_scan, hfe, hget]
  refine ⟨?_, ?_, rfl, hresult, ?_⟩
  · have hcond : ¬((cachedSub.length : Int) ≤ ((idx : Nat) : Int) ∨
        ((idx : Nat) : Int) < 0) := by
      omega
    simp only [start_scan]
    rw [if_neg hcond]
  · by_cases hfe : fresh.isEmpty
    · have hnil : fresh = [] := List.isEmpty_iff.mp hfe
      subst hnil
      simp [SaneBackend_scan]
    · simp only [Bool.not_eq_true] at hfe
      rcases hget : fresh[idx]? with _ | d <;>
        simp [SaneBackend_scan, hfe, hget]
  · intro hlen hexe
    by_cases hf : fresh = []
    · subst hf
      simp [SaneBackend_scan, perform_scan_steps, finalRecord, hexe]
    · rw [hresult hf hlen]
      simp [perform_scan_steps, finalRecord, hexe, hf]

/-- C10 witness: index 1 valid against a cached snapshot of two entries
but out of range of a fresh enumeration holding one device fails with
the IndexError message; the same index against the empty fresh
enumeration fails with the guard message. -/
theorem stale_index_fails_in_execution_witness :
    (SaneBackend_scan [⟨"sane:dev0", "HP", "Deskjet", "flatbed"⟩] 1
      "scans/a.png").result = .error "list index out of range" ∧
    (SaneBackend_scan [] 1 "scans/a.png").result = .error "No scanners found" :=
  ⟨(stale_index_fails_in_execution
    [⟨0, "HP Deskjet", "usb:001", "", "", "", "USB/Direct",
      "USB or Direct Connection"⟩,
      ⟨1, "Canon Lide", "usb:002", "", "", "", "USB/Direct",
        "USB or Direct Connection"⟩]
    [⟨0, "HP Deskjet", "usb:001", "", "", "", "USB/Direct",
      "USB or Direct Connection"⟩,
      ⟨1, "Canon Lide", "usb:002", "", "", "", "USB/Direct",
        "USB or Direct Connection"⟩]
    [⟨"sane:dev0", "HP", "Deskjet", "flatbed"⟩] 1 [] "job-1" "scans/a.png"
    initNetworkRecord (by decide)).2.2.2.1 (by decide) (by decide),
   (stale_index_fails_in_execution
    [⟨0, "HP Deskjet", "usb:001", "", "", "", "USB/Direct",
      "USB or Direct Connection"⟩,
      ⟨1, "Canon Lide", "usb:002", "", "", "", "USB/Direct",
        "USB or Direct Connection"⟩]
    [⟨0, "HP Deskjet", "usb:001", "", "", "", "USB/Direct",
      "USB or Direct Connection"⟩,
      ⟨1, "Canon Lide", "usb:002", "", "", "", "USB/Direct",
        "USB or Direct Connection"⟩]
    ([] : List SaneDev) 1 [] "job-1" "scans/a.png"
    initNetworkRecord (by decide)).2.2.1⟩
